import Mathlib

/-!
Shallow embedding of `src/verl/tools/gsm8k_calc.py` (`CalculatorTool`).

Modelling conventions:
* Python floats are modelled as exact rationals (`ℚ`); the numeric literals
  `1e-10`, `0.01`, `0.1`, `-0.05` of the source become the exact rationals
  `1/10^10`, `1/100`, `1/10`, `-1/20`.
* The session store `self._instance_dict` is modelled as a function
  `String → Option Session`; `none` means the key is absent.
* Host-library builtins that the source calls but does not define are taken
  as parameters of the embedded operations: `loads` models `json.loads`
  (returning `none` on `json.JSONDecodeError`), `pyStrF` models the builtin
  `str` applied to a decoded JSON value, and `ev` models the outcome of the
  whole guarded block of lines 70–77 of the source (`eval` in the restricted
  environment followed by the numeric coercion; `none` means some exception
  was raised and caught, leaving `result = None`).
* Python exceptions that escape a method (`KeyError` from
  `self._instance_dict[instance_id]` or `del`) are modelled with `Except`.
-/

/-- Values produced by `json.loads`: null, booleans, numbers, strings,
arrays and objects (objects as association lists, later binding winning as
in Python's `dict`). -/
inductive Json where
  | null : Json
  | bool (b : Bool) : Json
  | num (q : ℚ) : Json
  | str (s : String) : Json
  | arr (elems : List Json) : Json
  | obj (fields : List (String × Json)) : Json

/-- Lookup in a decoded JSON object. Python's `dict` keeps the last
occurrence of a duplicated key, so the lookup takes the last match. -/
def Json.lookupField (key : String) (fields : List (String × Json)) : Option Json :=
  fields.foldl (fun acc kv => if kv.1 = key then some kv.2 else acc) none

/-- Session state: one entry of `self._instance_dict`, as written by
`CalculatorTool.create` (lines 49–54). -/
structure Session where
  expression : String
  result : Option ℚ
  expected_result : Option ℚ
  reward : ℚ
deriving Repr, DecidableEq

/-- The session store `self._instance_dict`. -/
def Store : Type := String → Option Session

/-- Update of one key of the store (Python `d[k] = v`). -/
def Store.insert (store : Store) (id : String) (sess : Session) : Store :=
  fun k => if k = id then some sess else store k

/-- Removal of one key of the store (Python `del d[k]`, after the key was
checked to be present). -/
def Store.erase (store : Store) (id : String) : Store :=
  fun k => if k = id then none else store k

/-- Errors escaping a method: the `KeyError` raised by indexing or deleting
a missing `instance_id`. -/
inductive CalcErr where
  | notFound (id : String) : CalcErr
deriving Repr, DecidableEq

/-- `CalculatorTool.create` (lines 46–55): installs a fresh session under
`instance_id` (or under the externally generated `fresh` uuid when no id is
supplied) and returns the id used. It never fails and overwrites any
existing entry. -/
def create (store : Store) (instance_id : Option String) (fresh : String)
    (expected_result : Option ℚ) : String × Store :=
  let id := instance_id.getD fresh
  (id, store.insert id ⟨"", none, expected_result, 0⟩)

/-- The tier table of `CalculatorTool.calc_reward` (lines 94–105), as a
function of the stored `result` and `expected_result`. -/
def tieredReward (result expected : Option ℚ) : ℚ :=
  match result, expected with
  | some r, some t =>
      if |r - t| < 1 / 10 ^ 10 then 1
      else if |r - t| < 1 / 100 then 8 / 10
      else if |r - t| < 1 / 10 then 5 / 10
      else 0
  | _, _ => 0

/-- `CalculatorTool.calc_reward` (lines 90–105): reads the session's stored
`result` and `expected_result` and returns the tiered reward. The store is
returned unchanged — the method only reads it. Indexing a missing id raises
`KeyError`. -/
def calcReward (store : Store) (id : String) : Except CalcErr (ℚ × Store) :=
  match store id with
  | none => .error (.notFound id)
  | some sess => .ok (tieredReward sess.result sess.expected_result, store)

/-- Lines 58–68 of `CalculatorTool.execute`: decode `parameters` with
`json.loads` (`loads parameters = none` models `json.JSONDecodeError`, in
which case `_parameters = {}`), then take `_parameters.get("expression", "")`
when the decoded value is a mapping and `""` otherwise, coercing a non-string
field value with `str` (modelled by `pyStrF`). -/
def extractExpression (loads : String → Option Json) (pyStrF : Json → String)
    (parameters : String) : String :=
  match loads parameters with
  | some (Json.obj fields) =>
      match Json.lookupField ("expression") fields with
      | some (Json.str s) => s
      | some v => pyStrF v
      | none => ""
  | _ => ""

/-- Rendering of the stored result inside the message of line 88
(`f"..., Result: {result}"`): Python prints `None` for a missing result and
the numeric value otherwise (numeric rendering is abstracted by `toString`
on the rational). -/
def renderResult (result : Option ℚ) : String :=
  match result with
  | none => "None"
  | some q => toString q

/-- Core of `CalculatorTool.execute` (lines 70–88) once the expression
string is in hand: evaluate it (`ev` models the guarded `eval`+coercion
block, `none` meaning the exception path that leaves `result = None`),
overwrite the session's `expression` and `result`, recompute the tiered
reward via `calc_reward`, derive the shaping reward by comparison with the
previously stored reward, store the new reward, and return the message
triple. Indexing a missing `instance_id` raises `KeyError` (line 79). -/
def executeExpr (ev : String → Option ℚ) (store : Store) (id : String)
    (expression : String) : Except CalcErr ((String × ℚ × Unit) × Store) :=
  let result := ev expression
  match store id with
  | none => .error (.notFound id)
  | some sess =>
      let sess1 : Session := { sess with expression := expression, result := result }
      let store1 := store.insert id sess1
      match calcReward store1 id with
      | .error e => .error e
      | .ok (reward, _) =>
          let tool_reward : ℚ := if reward > sess1.reward then 0 else -(5 / 100)
          let store2 := store1.insert id { sess1 with reward := reward }
          .ok (("Expression: " ++ expression ++ ", Result: " ++ renderResult result,
                tool_reward, ()), store2)

/-- `CalculatorTool.execute` (lines 57–88): request parsing followed by
`executeExpr`. -/
def execute (loads : String → Option Json) (pyStrF : Json → String)
    (ev : String → Option ℚ) (store : Store) (id : String)
    (parameters : String) : Except CalcErr ((String × ℚ × Unit) × Store) :=
  executeExpr ev store id (extractExpression loads pyStrF parameters)

/-- `CalculatorTool.release` (lines 107–108): `del self._instance_dict[id]`,
raising `KeyError` when the id is unknown. -/
def release (store : Store) (id : String) : Except CalcErr Store :=
  match store id with
  | none => .error (.notFound id)
  | some _ => .ok (store.erase id)

/-!
Model of the restricted evaluator of line 72 of the source:
`eval(expression, \x7b"__builtins__": \x7b\x7d\x7d, \x7b"abs": abs, "round": round\x7d)`.
Python's `eval` parses the string in expression mode (statements are
rejected by the parser) and evaluates the resulting expression tree with
an empty builtins table, the single global binding `__builtins__` (bound to
the empty dict) and the two local bindings `abs` and `round`. The fragment
of Python expression trees needed by the claims is modelled by `PyExpr`:
integer and string literals, name references, attribute access and calls.
Evaluation follows Python: a name not bound in the environment raises
`NameError`; attribute access is evaluated normally (Python integers expose
the data attributes `real`, `imag`, `numerator`, `denominator`); a call
evaluates the callee first, then the arguments left to right.
-/

/-- Values arising while evaluating the modelled fragment: integers,
strings, the two allow-listed builtin functions and the empty dict bound to
the name `__builtins__`. -/
inductive PyVal where
  | int (n : ℤ) : PyVal
  | str (s : String) : PyVal
  | fnAbs : PyVal
  | fnRound : PyVal
  | emptyDict : PyVal
deriving Repr, DecidableEq

/-- Python expression trees (the fragment relevant to the sandbox claims). -/
inductive PyExpr where
  | intLit (n : ℤ) : PyExpr
  | strLit (s : String) : PyExpr
  | name (s : String) : PyExpr
  | attr (e : PyExpr) (field : String) : PyExpr
  | call (f : PyExpr) (args : List PyExpr) : PyExpr

/-- Exceptions raised during evaluation of the modelled fragment. -/
inductive PyErr where
  | nameError (s : String) : PyErr
  | attributeError (field : String) : PyErr
  | typeError : PyErr
deriving Repr, DecidableEq

mutual

/-- Evaluation of an expression tree in the environment of line 72: only
`abs`, `round` and `__builtins__` (the empty dict) resolve as names; every
other name raises `NameError`. Attribute access and calls are evaluated as
Python evaluates them. -/
def restrictedEval : PyExpr → Except PyErr PyVal
  | .intLit n => .ok (.int n)
  | .strLit s => .ok (.str s)
  | .name s =>
      if s = "abs" then .ok .fnAbs
      else if s = "round" then .ok .fnRound
      else if s = "__builtins__" then .ok .emptyDict
      else .error (.nameError s)
  | .attr e field =>
      match restrictedEval e with
      | .error err => .error err
      | .ok v =>
          match v, field with
          | .int n, "real" => .ok (.int n)
          | .int _, "imag" => .ok (.int 0)
          | .int n, "numerator" => .ok (.int n)
          | .int _, "denominator" => .ok (.int 1)
          | _, f => .error (.attributeError f)
  | .call f args =>
      match restrictedEval f with
      | .error err => .error err
      | .ok fv =>
          match restrictedEvalArgs args with
          | .error err => .error err
          | .ok avs =>
              match fv, avs with
              | .fnAbs, [.int n] => .ok (.int |n|)
              | .fnRound, [.int n] => .ok (.int n)
              | _, _ => .error .typeError

/-- Left-to-right evaluation of the argument list of a call, stopping at
the first exception. -/
def restrictedEvalArgs : List PyExpr → Except PyErr (List PyVal)
  | [] => .ok []
  | a :: rest =>
      match restrictedEval a with
      | .error err => .error err
      | .ok v =>
          match restrictedEvalArgs rest with
          | .error err => .error err
          | .ok vs => .ok (v :: vs)

end

mutual

/-- Syntactic test: the expression tree contains an attribute access. -/
def hasAttrAccess : PyExpr → Bool
  | .intLit _ => false
  | .strLit _ => false
  | .name _ => false
  | .attr _ _ => true
  | .call f args => hasAttrAccess f || hasAttrAccessArgs args

/-- Syntactic test over an argument list. -/
def hasAttrAccessArgs : List PyExpr → Bool
  | [] => false
  | a :: rest => hasAttrAccess a || hasAttrAccessArgs rest

end

/-- Expression tree of the attack string of the spec — `__import__`
applied to the string literal os, then the attribute `system`, applied to
the string literal ls — as Python parses it in eval mode. -/
def importAttack : PyExpr :=
  .call (.attr (.call (.name ("__import__")) [.strLit ("os")]) ("system")) [.strLit ("ls")]

/-!
Concrete fixtures used to instantiate the theorems below at specific
inputs: a decoder that wraps the payload as the expression field, an
evaluator that evaluates the string ten to 10 and fails on everything
else, and a store holding one session with target 10.
-/

/-- Fixture: store with no sessions. -/
def emptyStore : Store := fun _ => none

/-- Fixture: a decoder mapping each payload to an object whose expression
field is the payload itself. -/
def demoLoads : String → Option Json :=
  fun p => some (Json.obj [("expression", Json.str p)])

/-- Fixture: a decoder that fails on every payload (every payload is
malformed). -/
def failLoads : String → Option Json := fun _ => none

/-- Fixture: a trivial rendering of decoded JSON values. -/
def demoPyStr : Json → String := fun _ => ""

/-- Fixture: an evaluator where the string ten evaluates to 10 and every
other string raises. -/
def demoEval : String → Option ℚ :=
  fun s => if s = "ten" then some 10 else none

/-- Fixture: a store holding the single session s with target 10, as left
by `create`. -/
def demoStore : Store :=
  Store.insert emptyStore ("s") ⟨"", none, some 10, 0⟩

/-- Fixture: an evaluator on which every expression raises. -/
def noEval : String → Option ℚ := fun _ => none

/-!
Helper lemmas about the store and the execute pipeline.
-/

theorem Store.insert_self (store : Store) (id : String) (sess : Session) :
    store.insert id sess id = some sess := by
  simp [Store.insert]

theorem Store.insert_other (store : Store) (id : String) (sess : Session)
    (k : String) (hk : k ≠ id) : store.insert id sess k = store k := by
  simp [Store.insert, hk]

theorem Store.insert_insert (store : Store) (id : String) (s1 s2 : Session) :
    (store.insert id s1).insert id s2 = store.insert id s2 := by
  funext k
  by_cases hk : k = id <;> simp [Store.insert, hk]

theorem Store.erase_self (store : Store) (id : String) :
    store.erase id id = none := by
  simp [Store.erase]

theorem Store.erase_other (store : Store) (id : String) (k : String) (hk : k ≠ id) :
    store.erase id k = store k := by
  simp [Store.erase, hk]

theorem executeExpr_spec (ev : String → Option ℚ) (store : Store) (id : String)
    (e : String) (sess : Session) (h : store id = some sess) :
    executeExpr ev store id e =
      .ok (("Expression: " ++ e ++ ", Result: " ++ renderResult (ev e),
            if tieredReward (ev e) sess.expected_result > sess.reward then 0
            else -(5 / 100), ()),
           store.insert id
             ⟨e, ev e, sess.expected_result, tieredReward (ev e) sess.expected_result⟩) := by
  obtain ⟨se, sr, st, sw⟩ := sess
  simp [executeExpr, h, calcReward, Store.insert_self, Store.insert_insert]

/-- Claim C1: for every session whose stored result and target are both
numeric, `calc_reward` returns 1.0 when the distance is below 1e-10, 0.8
when it is below 0.01, 0.5 when it is below 0.1 and 0.0 otherwise; and it
returns 0.0 when either the stored result or the target is missing. -/
theorem calc_reward_tiers (store : Store) (id : String) (sess : Session)
    (h : store id = some sess) :
    ((sess.result = none ∨ sess.expected_result = none) →
      calcReward store id = .ok (0, store)) ∧
    (∀ r t, sess.result = some r → sess.expected_result = some t →
      (|r - t| < 1 / 10 ^ 10 → calcReward store id = .ok (1, store)) ∧
      (1 / 10 ^ 10 ≤ |r - t| → |r - t| < 1 / 100 → calcReward store id = .ok (8 / 10, store)) ∧
      (1 / 100 ≤ |r - t| → |r - t| < 1 / 10 → calcReward store id = .ok (5 / 10, store)) ∧
      (1 / 10 ≤ |r - t| → calcReward store id = .ok (0, store))) := by
  constructor
  · rintro (h1 | h1)
    · cases hct : sess.expected_result <;>
        simp [calcReward, h, tieredReward, h1, hct]
    · cases hcr : sess.result <;>
        simp [calcReward, h, tieredReward, h1, hcr]
  · intro r t hr ht
    have hcalc : calcReward store id = .ok (tieredReward (some r) (some t), store) := by
      simp [calcReward, h, hr, ht]
    refine ⟨?_, ?_, ?_, ?_⟩
    · intro h1
      rw [hcalc]
      simp only [tieredReward]
      rw [if_pos h1]
    · intro h1 h2
      rw [hcalc]
      simp only [tieredReward]
      rw [if_neg (not_lt.mpr h1), if_pos h2]
    · intro h1 h2
      have h0 : ¬ |r - t| < 1 / 10 ^ 10 := not_lt.mpr (le_trans (by norm_num) h1)
      rw [hcalc]
      simp only [tieredReward]
      rw [if_neg h0, if_neg (not_lt.mpr h1), if_pos h2]
    · intro h1
      have h0 : ¬ |r - t| < 1 / 10 ^ 10 := not_lt.mpr (le_trans (by norm_num) h1)
      have hm : ¬ |r - t| < 1 / 100 := not_lt.mpr (le_trans (by norm_num) h1)
      rw [hcalc]
      simp only [tieredReward]
      rw [if_neg h0, if_neg hm, if_neg (not_lt.mpr h1)]

/-- Witness for `calc_reward_tiers`: the demo session stores no result yet,
so its tiered reward is 0. -/
theorem calc_reward_tiers_witness :
    demoStore ("s") = some ⟨"", none, some 10, 0⟩ ∧
    calcReward demoStore ("s") = .ok (0, demoStore) :=
  ⟨rfl, (calc_reward_tiers demoStore ("s") ⟨"", none, some 10, 0⟩ rfl).1 (Or.inl rfl)⟩

/-- Claim C2: the shaping reward returned by `execute` is 0.0 when the
newly computed tiered reward strictly exceeds the reward stored in the
session before the call, and exactly -0.05 otherwise; in particular the
second of two submissions of the same payload yields -0.05. -/
theorem execute_shaping (loads : String → Option Json) (pyStrF : Json → String)
    (ev : String → Option ℚ) (store : Store) (id : String) (sess : Session)
    (params : String) (h : store id = some sess) :
    (tieredReward (ev (extractExpression loads pyStrF params)) sess.expected_result >
        sess.reward →
      ∃ msg store1, execute loads pyStrF ev store id params = .ok ((msg, 0, ()), store1)) ∧
    (tieredReward (ev (extractExpression loads pyStrF params)) sess.expected_result ≤
        sess.reward →
      ∃ msg store1,
        execute loads pyStrF ev store id params = .ok ((msg, -(5 / 100), ()), store1)) ∧
    (∀ out1 store1, execute loads pyStrF ev store id params = .ok (out1, store1) →
      ∃ msg store2,
        execute loads pyStrF ev store1 id params = .ok ((msg, -(5 / 100), ()), store2)) := by
  have hx := executeExpr_spec ev store id (extractExpression loads pyStrF params) sess h
  refine ⟨?_, ?_, ?_⟩
  · intro hgt
    rw [if_pos hgt] at hx
    exact ⟨_, _, hx⟩
  · intro hle
    rw [if_neg (not_lt.mpr hle)] at hx
    exact ⟨_, _, hx⟩
  · intro out1 store1 hrun
    have hrun1 : executeExpr ev store id (extractExpression loads pyStrF params) =
        .ok (out1, store1) := hrun
    rw [hx] at hrun1
    injection hrun1 with hpair
    have hstore : store1 = store.insert id
        ⟨extractExpression loads pyStrF params,
         ev (extractExpression loads pyStrF params), sess.expected_result,
         tieredReward (ev (extractExpression loads pyStrF params)) sess.expected_result⟩ :=
      (congrArg Prod.snd hpair).symm
    subst hstore
    have h2 := executeExpr_spec ev
      (store.insert id ⟨extractExpression loads pyStrF params,
        ev (extractExpression loads pyStrF params), sess.expected_result,
        tieredReward (ev (extractExpression loads pyStrF params)) sess.expected_result⟩)
      id (extractExpression loads pyStrF params) _ (Store.insert_self _ _ _)
    dsimp only at h2
    rw [if_neg (lt_irrefl _)] at h2
    exact ⟨_, _, h2⟩

/-- Witness for `execute_shaping`: in the demo session with target 10 and
stored reward 0, a submission evaluating to 10 scores 1 and returns
shaping reward 0. -/
theorem execute_shaping_witness :
    tieredReward (some 10) (some 10) > (0 : ℚ) ∧
    (∃ msg store1,
      execute demoLoads demoPyStr demoEval demoStore ("s") ("ten") =
        .ok ((msg, 0, ()), store1)) := by
  have hgt : tieredReward (some (10 : ℚ)) (some 10) > (0 : ℚ) := by
    simp only [tieredReward]
    rw [if_pos (show |(10 : ℚ) - 10| < 1 / 10 ^ 10 by
      rw [sub_self, abs_zero]; norm_num)]
    norm_num
  exact ⟨hgt, (execute_shaping demoLoads demoPyStr demoEval demoStore ("s")
    ⟨"", none, some 10, 0⟩ ("ten") rfl).1 hgt⟩

/-- Counterexample for claim C3: in the demo session with target 10, a
submission evaluating to 10 stores reward 1; the following failed
submission stores reward 0, although the most recent successful
evaluation (the first one) has tiered score 1. -/
theorem reward_forgets_success_cex :
    tieredReward (some 10) (some 10) = 1 ∧
    (∃ out1,
      execute demoLoads demoPyStr demoEval demoStore ("s") ("ten") =
        .ok (out1, demoStore.insert ("s") ⟨"ten", some 10, some 10, 1⟩)) ∧
    (∃ out2,
      execute demoLoads demoPyStr demoEval
          (demoStore.insert ("s") ⟨"ten", some 10, some 10, 1⟩) ("s") ("bad") =
        .ok (out2, demoStore.insert ("s") ⟨"bad", none, some 10, 0⟩)) := by
  have t1 : tieredReward (some (10 : ℚ)) (some 10) = 1 := by
    simp only [tieredReward]
    rw [if_pos (show |(10 : ℚ) - 10| < 1 / 10 ^ 10 by
      rw [sub_self, abs_zero]; norm_num)]
  refine ⟨t1, ?_, ?_⟩
  · have h1 := executeExpr_spec demoEval demoStore ("s") ("ten")
      ⟨"", none, some 10, 0⟩ rfl
    dsimp only at h1
    have he : demoEval ("ten") = some 10 := rfl
    rw [he, t1] at h1
    exact ⟨_, h1⟩
  · have h2 := executeExpr_spec demoEval
      (demoStore.insert ("s") ⟨"ten", some 10, some 10, 1⟩) ("s") ("bad")
      ⟨"ten", some 10, some 10, 1⟩ (Store.insert_self _ _ _)
    dsimp only at h2
    have hb : demoEval ("bad") = none := rfl
    have t0 : tieredReward none (some 10) = 0 := rfl
    rw [hb, t0, Store.insert_insert] at h2
    exact ⟨_, h2⟩

/-- Claim C3 (amended): after `create` the stored reward is 0 with no
stored result, and after every successful `execute` call the stored reward
equals the tiered score of that call's evaluation attempt — equivalently,
the tiered reward of the currently stored result — so a failed attempt
resets the reward to 0.0 even when an earlier evaluation succeeded. -/
theorem reward_reflects_latest_attempt :
    (∀ store instId fresh target,
      ((create store instId fresh target).2) (create store instId fresh target).1 =
        some ⟨"", none, target, 0⟩) ∧
    (∀ loads pyStrF ev store id sess params out1 store1,
      store id = some sess →
      execute loads pyStrF ev store id params = .ok (out1, store1) →
      ∃ sess1, store1 id = some sess1 ∧
        sess1.result = ev (extractExpression loads pyStrF params) ∧
        sess1.reward = tieredReward sess1.result sess1.expected_result) := by
  constructor
  · intro store instId fresh target
    exact Store.insert_self _ _ _
  · intro loads pyStrF ev store id sess params out1 store1 h hrun
    have hx := executeExpr_spec ev store id (extractExpression loads pyStrF params) sess h
    have hrun1 : executeExpr ev store id (extractExpression loads pyStrF params) =
        .ok (out1, store1) := hrun
    rw [hx] at hrun1
    injection hrun1 with hpair
    have hstore : store1 = store.insert id
        ⟨extractExpression loads pyStrF params,
         ev (extractExpression loads pyStrF params), sess.expected_result,
         tieredReward (ev (extractExpression loads pyStrF params)) sess.expected_result⟩ :=
      (congrArg Prod.snd hpair).symm
    subst hstore
    exact ⟨_, Store.insert_self _ _ _, rfl, rfl⟩

/-- Witness for `reward_reflects_latest_attempt`: creating a session under
a chosen key, and running a failing submission on the demo session, both
leave sessions whose reward equals the tiered score of the latest attempt. -/
theorem reward_reflects_latest_attempt_witness :
    ((create emptyStore (some ("s")) ("u") (some 10)).2)
        (create emptyStore (some ("s")) ("u") (some 10)).1 =
      some ⟨"", none, some 10, 0⟩ ∧
    (∃ sess1, (demoStore.insert ("s") ⟨"", none, some 10, 0⟩) ("s") = some sess1 ∧
      sess1.result = noEval (extractExpression failLoads demoPyStr ("x")) ∧
      sess1.reward = tieredReward sess1.result sess1.expected_result) :=
  ⟨reward_reflects_latest_attempt.1 emptyStore (some ("s")) ("u") (some 10),
   reward_reflects_latest_attempt.2 failLoads demoPyStr noEval demoStore ("s")
     ⟨"", none, some 10, 0⟩ ("x") _ _ rfl
     (executeExpr_spec noEval demoStore ("s")
       (extractExpression failLoads demoPyStr ("x")) ⟨"", none, some 10, 0⟩ rfl)⟩

/-- Counterexample for claim C4: the first submission evaluates
successfully (stored result 10); the following failed submission sets the
stored result back to null, so the session has a null result although an
evaluation succeeded earlier in the session. -/
theorem result_null_after_success_cex :
    (∃ out1,
      execute demoLoads demoPyStr demoEval demoStore ("s") ("ten") =
        .ok (out1, demoStore.insert ("s") ⟨"ten", some 10, some 10, 1⟩)) ∧
    (demoStore.insert ("s") ⟨"ten", some 10, some 10, 1⟩) ("s") =
      some ⟨"ten", some 10, some 10, 1⟩ ∧
    (∃ out2,
      execute demoLoads demoPyStr demoEval
          (demoStore.insert ("s") ⟨"ten", some 10, some 10, 1⟩) ("s") ("bad") =
        .ok (out2, demoStore.insert ("s") ⟨"bad", none, some 10, 0⟩)) ∧
    (demoStore.insert ("s") ⟨"bad", none, some 10, 0⟩) ("s") =
      some ⟨"bad", none, some 10, 0⟩ := by
  have t1 : tieredReward (some (10 : ℚ)) (some 10) = 1 := by
    simp only [tieredReward]
    rw [if_pos (show |(10 : ℚ) - 10| < 1 / 10 ^ 10 by
      rw [sub_self, abs_zero]; norm_num)]
  refine ⟨?_, Store.insert_self _ _ _, ?_, Store.insert_self _ _ _⟩
  · have h1 := executeExpr_spec demoEval demoStore ("s") ("ten")
      ⟨"", none, some 10, 0⟩ rfl
    dsimp only at h1
    have he : demoEval ("ten") = some 10 := rfl
    rw [he, t1] at h1
    exact ⟨_, h1⟩
  · have h2 := executeExpr_spec demoEval
      (demoStore.insert ("s") ⟨"ten", some 10, some 10, 1⟩) ("s") ("bad")
      ⟨"ten", some 10, some 10, 1⟩ (Store.insert_self _ _ _)
    dsimp only at h2
    have hb : demoEval ("bad") = none := rfl
    have t0 : tieredReward none (some 10) = 0 := rfl
    rw [hb, t0, Store.insert_insert] at h2
    exact ⟨_, h2⟩

/-- Claim C4 (amended): the stored result is overwritten on every call:
after `create` it is null, and after each `execute` call it is null iff
that call's evaluation attempt failed — so a failure following a success
makes the result null again. -/
theorem result_tracks_latest_attempt :
    (∀ store instId fresh target,
      ((create store instId fresh target).2) (create store instId fresh target).1 =
        some ⟨"", none, target, 0⟩) ∧
    (∀ loads pyStrF ev store id sess params out1 store1,
      store id = some sess →
      execute loads pyStrF ev store id params = .ok (out1, store1) →
      ∃ sess1, store1 id = some sess1 ∧
        (sess1.result = none ↔ ev (extractExpression loads pyStrF params) = none)) := by
  constructor
  · intro store instId fresh target
    exact Store.insert_self _ _ _
  · intro loads pyStrF ev store id sess params out1 store1 h hrun
    have hx := executeExpr_spec ev store id (extractExpression loads pyStrF params) sess h
    have hrun1 : executeExpr ev store id (extractExpression loads pyStrF params) =
        .ok (out1, store1) := hrun
    rw [hx] at hrun1
    injection hrun1 with hpair
    have hstore : store1 = store.insert id
        ⟨extractExpression loads pyStrF params,
         ev (extractExpression loads pyStrF params), sess.expected_result,
         tieredReward (ev (extractExpression loads pyStrF params)) sess.expected_result⟩ :=
      (congrArg Prod.snd hpair).symm
    subst hstore
    exact ⟨_, Store.insert_self _ _ _, Iff.rfl⟩

/-- Witness for `result_tracks_latest_attempt`: a created session has a
null result, and a failing submission leaves a session whose result is
null iff the attempt failed. -/
theorem result_tracks_latest_attempt_witness :
    ((create emptyStore (some ("t")) ("u") none).2)
        (create emptyStore (some ("t")) ("u") none).1 = some ⟨"", none, none, 0⟩ ∧
    (∃ sess1, (demoStore.insert ("s") ⟨"", none, some 10, 0⟩) ("s") = some sess1 ∧
      (sess1.result = none ↔ noEval (extractExpression failLoads demoPyStr ("y")) = none)) :=
  ⟨result_tracks_latest_attempt.1 emptyStore (some ("t")) ("u") none,
   result_tracks_latest_attempt.2 failLoads demoPyStr noEval demoStore ("s")
     ⟨"", none, some 10, 0⟩ ("y") _ _ rfl
     (executeExpr_spec noEval demoStore ("s")
       (extractExpression failLoads demoPyStr ("y")) ⟨"", none, some 10, 0⟩ rfl)⟩

/-- Tiered reward of a failed evaluation: with no stored result the reward
is 0 whatever the target is. -/
theorem tieredReward_none (expected : Option ℚ) : tieredReward none expected = 0 := rfl

/-- Counterexample for claim C5: attribute access is not blocked by the
evaluation environment of line 72 — the expression accessing the attribute
`real` of the literal 1 contains an attribute access and still evaluates
successfully (to 1), contradicting the claim that no attribute access is
permitted. -/
theorem sandbox_attr_access_cex :
    hasAttrAccess (.attr (.intLit 1) ("real")) = true ∧
    restrictedEval (.attr (.intLit 1) ("real")) = .ok (.int 1) := by
  constructor
  · simp [hasAttrAccess]
  · simp [restrictedEval]

/-- Claim C5 (amended): under the environment of line 72, every name other
than the two allow-listed functions (and the empty `__builtins__` mapping)
raises `NameError`; in particular the attack expression — `__import__`
applied to the string os, attribute `system`, applied to ls — fails at the
unresolvable name `__import__` before any call is made, so it executes no
side effect; `execute` absorbs any such evaluation failure, stores a null
result whose tiered reward is 0.0, and returns normally. (Attribute access
itself, however, is not blocked: see the counterexample.) -/
theorem sandbox_restricted :
    (∀ s, s ≠ "abs" → s ≠ "round" → s ≠ "__builtins__" →
      restrictedEval (.name s) = .error (.nameError s)) ∧
    restrictedEval importAttack = .error (.nameError ("__import__")) ∧
    (∀ loads pyStrF ev store id sess params,
      store id = some sess →
      ev (extractExpression loads pyStrF params) = none →
      ∃ msg r store1,
        execute loads pyStrF ev store id params = .ok ((msg, r, ()), store1) ∧
        store1 id = some ⟨extractExpression loads pyStrF params, none,
          sess.expected_result, 0⟩ ∧
        calcReward store1 id = .ok (0, store1)) := by
  refine ⟨?_, ?_, ?_⟩
  · intro s h1 h2 h3
    simp [restrictedEval, h1, h2, h3]
  · simp [importAttack, restrictedEval]
  · intro loads pyStrF ev store id sess params h hev
    have hx := executeExpr_spec ev store id (extractExpression loads pyStrF params) sess h
    rw [hev, tieredReward_none] at hx
    refine ⟨_, _, _, hx, Store.insert_self _ _ _, ?_⟩
    have hmem : (store.insert id ⟨extractExpression loads pyStrF params, none,
        sess.expected_result, 0⟩) id =
        some ⟨extractExpression loads pyStrF params, none, sess.expected_result, 0⟩ :=
      Store.insert_self _ _ _
    simp [calcReward, hmem, tieredReward_none]

/-- Witness for `sandbox_restricted`: the name open does not resolve, and a
failing submission on the demo session is absorbed with a null result and
tiered reward 0. -/
theorem sandbox_restricted_witness :
    restrictedEval (.name ("open")) = .error (.nameError ("open")) ∧
    (∃ msg r store1,
      execute failLoads demoPyStr noEval demoStore ("s") ("z") =
        .ok ((msg, r, ()), store1) ∧
      store1 ("s") = some ⟨extractExpression failLoads demoPyStr ("z"), none,
        some 10, 0⟩ ∧
      calcReward store1 ("s") = .ok (0, store1)) :=
  ⟨sandbox_restricted.1 ("open") (by decide) (by decide) (by decide),
   sandbox_restricted.2.2 failLoads demoPyStr noEval demoStore ("s")
     ⟨"", none, some 10, 0⟩ ("z") rfl rfl⟩

/-- Claim C6: for every session id present in the store and every payload,
`execute` returns a well-formed (message, shaping reward, metadata) triple
and raises no exception; any evaluation failure (modelled by the evaluator
returning none, covering syntax errors, disallowed names, runtime errors
and failed numeric coercion) is absorbed and sets the stored result to
null. -/
theorem execute_total_and_absorbing (loads : String → Option Json)
    (pyStrF : Json → String) (ev : String → Option ℚ) (store : Store)
    (id : String) (sess : Session) (params : String) (h : store id = some sess) :
    ∃ msg r store1,
      execute loads pyStrF ev store id params = .ok ((msg, r, ()), store1) ∧
      (ev (extractExpression loads pyStrF params) = none →
        store1 id = some ⟨extractExpression loads pyStrF params, none,
          sess.expected_result, 0⟩) := by
  have hx := executeExpr_spec ev store id (extractExpression loads pyStrF params) sess h
  refine ⟨_, _, _, hx, ?_⟩
  intro hev
  rw [hev, tieredReward_none]
  exact Store.insert_self _ _ _

/-- Witness for `execute_total_and_absorbing`: a failing submission on the
demo session returns a triple and stores a null result. -/
theorem execute_total_and_absorbing_witness :
    ∃ msg r store1,
      execute demoLoads demoPyStr demoEval demoStore ("s") ("boom") =
        .ok ((msg, r, ()), store1) ∧
      (demoEval (extractExpression demoLoads demoPyStr ("boom")) = none →
        store1 ("s") = some ⟨extractExpression demoLoads demoPyStr ("boom"), none,
          some 10, 0⟩) :=
  execute_total_and_absorbing demoLoads demoPyStr demoEval demoStore ("s")
    ⟨"", none, some 10, 0⟩ ("boom") rfl

/-- Claim C7: a payload that fails to decode, or decodes to a non-mapping,
or to a mapping without an expression field, makes `execute` behave exactly
as if the empty expression had been submitted; a non-string expression
field is coerced to its textual representation before evaluation. -/
theorem malformed_payload_degrades (loads : String → Option Json)
    (pyStrF : Json → String) (ev : String → Option ℚ) (store : Store)
    (id : String) (params : String) :
    (loads params = none →
      execute loads pyStrF ev store id params = executeExpr ev store id "") ∧
    (∀ j, loads params = some j → (∀ fields, j ≠ Json.obj fields) →
      execute loads pyStrF ev store id params = executeExpr ev store id "") ∧
    (∀ fields, loads params = some (Json.obj fields) →
      Json.lookupField ("expression") fields = none →
      execute loads pyStrF ev store id params = executeExpr ev store id "") ∧
    (∀ fields v, loads params = some (Json.obj fields) →
      Json.lookupField ("expression") fields = some v → (∀ s, v ≠ Json.str s) →
      execute loads pyStrF ev store id params = executeExpr ev store id (pyStrF v)) := by
  refine ⟨?_, ?_, ?_, ?_⟩
  · intro hl
    simp [execute, extractExpression, hl]
  · intro j hl hnotobj
    cases j with
    | obj fields => exact absurd rfl (hnotobj fields)
    | null => simp [execute, extractExpression, hl]
    | bool b => simp [execute, extractExpression, hl]
    | num q => simp [execute, extractExpression, hl]
    | str s => simp [execute, extractExpression, hl]
    | arr es => simp [execute, extractExpression, hl]
  · intro fields hl hlook
    simp [execute, extractExpression, hl, hlook]
  · intro fields v hl hlook hnotstr
    cases v with
    | str s => exact absurd rfl (hnotstr s)
    | null => simp [execute, extractExpression, hl, hlook]
    | bool b => simp [execute, extractExpression, hl, hlook]
    | num q => simp [execute, extractExpression, hl, hlook]
    | arr es => simp [execute, extractExpression, hl, hlook]
    | obj fs => simp [execute, extractExpression, hl, hlook]

/-- Witness for `malformed_payload_degrades`: under the always-failing
decoder, executing any payload equals executing the empty expression. -/
theorem malformed_payload_degrades_witness :
    failLoads ("q") = none ∧
    execute failLoads demoPyStr noEval demoStore ("s") ("q") =
      executeExpr noEval demoStore ("s") "" :=
  ⟨rfl, (malformed_payload_degrades failLoads demoPyStr noEval demoStore ("s") ("q")).1 rfl⟩

/-- Claim C8: `release` removes the session from the store, and on an
unknown or already released identifier both `release` and a subsequent
`execute` fail with a not-found error. -/
theorem release_removes_and_notfound (store : Store) (id : String) :
    (∀ sess, store id = some sess →
      release store id = .ok (store.erase id) ∧
      store.erase id id = none ∧
      (∀ k, k ≠ id → store.erase id k = store k) ∧
      release (store.erase id) id = .error (.notFound id) ∧
      (∀ loads pyStrF ev params,
        execute loads pyStrF ev (store.erase id) id params = .error (.notFound id))) ∧
    (store id = none →
      release store id = .error (.notFound id) ∧
      (∀ loads pyStrF ev params,
        execute loads pyStrF ev store id params = .error (.notFound id))) := by
  constructor
  · intro sess h
    refine ⟨by simp [release, h], Store.erase_self _ _,
      fun k hk => Store.erase_other _ _ _ hk, by simp [release, Store.erase_self],
      fun loads pyStrF ev params => by simp [execute, executeExpr, Store.erase_self]⟩
  · intro h
    exact ⟨by simp [release, h],
      fun loads pyStrF ev params => by simp [execute, executeExpr, h]⟩

/-- Witness for `release_removes_and_notfound`: releasing the demo session
succeeds; releasing it again fails, and so does executing on it. -/
theorem release_removes_and_notfound_witness :
    release demoStore ("s") = .ok (demoStore.erase ("s")) ∧
    release (demoStore.erase ("s")) ("s") = .error (.notFound ("s")) ∧
    execute failLoads demoPyStr noEval (demoStore.erase ("s")) ("s") ("p") =
      .error (.notFound ("s")) := by
  have h := (release_removes_and_notfound demoStore ("s")).1 ⟨"", none, some 10, 0⟩ rfl
  exact ⟨h.1, h.2.2.2.1, h.2.2.2.2 failLoads demoPyStr noEval ("p")⟩

/-- Claim C9: `calc_reward` on an existing session returns the tiered
reward of the stored result and target together with the very store it was
given — no session field and no other session is mutated. -/
theorem calc_reward_no_mutation (store : Store) (id : String) (sess : Session)
    (h : store id = some sess) :
    calcReward store id = .ok (tieredReward sess.result sess.expected_result, store) := by
  simp [calcReward, h]

/-- Witness for `calc_reward_no_mutation`: querying the demo session
returns its tiered reward and the unchanged store. -/
theorem calc_reward_no_mutation_witness :
    calcReward demoStore ("s") = .ok (tieredReward none (some 10), demoStore) :=
  calc_reward_no_mutation demoStore ("s") ⟨"", none, some 10, 0⟩ rfl

/-- Claim C10: calling `create` with an instance id already present in the
store does not fail and does not preserve the old session: it returns the
same id and replaces the entry with a fresh session (empty expression,
null result, reward 0.0, the newly supplied target), leaving every other
session untouched. -/
theorem create_replaces_existing (store : Store) (id : String) (fresh : String)
    (target : Option ℚ) (sess : Session) (h : store id = some sess) :
    (create store (some id) fresh target).1 = id ∧
    ((create store (some id) fresh target).2) id = some ⟨"", none, target, 0⟩ ∧
    (∀ k, k ≠ id → ((create store (some id) fresh target).2) k = store k) :=
  ⟨rfl, Store.insert_self _ _ _, fun k hk => Store.insert_other _ _ _ _ hk⟩

/-- Witness for `create_replaces_existing`: re-creating the demo session
with target 5 overwrites it with a fresh session holding target 5. -/
theorem create_replaces_existing_witness :
    (create demoStore (some ("s")) ("u") (some 5)).1 = "s" ∧
    ((create demoStore (some ("s")) ("u") (some 5)).2) ("s") =
      some ⟨"", none, some 5, 0⟩ :=
  ⟨(create_replaces_existing demoStore ("s") ("u") (some 5)
      ⟨"", none, some 10, 0⟩ rfl).1,
   (create_replaces_existing demoStore ("s") ("u") (some 5)
      ⟨"", none, some 10, 0⟩ rfl).2.1⟩
